import Mathlib

/-!
Verification development for the ltc_timecode_pi repository.

This file shallowly embeds the timing-critical parts of the program:

* the shared NTP state triple and the per-frame slew step performed inside
  `get_timecode_with_alsa_latency` (ltc_timecode.c);
* the sample filtering, offset selection and target/step publication
  performed by `query_ntp_server` (ltc_ntp.c);
* the frame-number derivation shared by `get_timecode_with_alsa_latency`
  and `get_display_timecode` (rational frame duration, clamping, and the
  drop-frame rule);
* the interval-wait loop of `ntp_sync_thread`.

C `int64_t` arithmetic is modelled with `Int`; C division and remainder
truncate toward zero, so they are modelled with `Int.tdiv` and `Int.tmod`.
-/

namespace LtcTimecodePi

/-- Microseconds per second, the constant `MICROSECONDS_PER_SECOND` from
`ltc_common.h`. -/
def MICROSECONDS_PER_SECOND : Int := 1000000

/-- The shared NTP state triple guarded by `ntp_lock`: the globals
`ntp_offset_us`, `ntp_target_offset_us` (ltc_timecode_pi.c) and
`ntp_adjustment_step_us` (ltc_ntp.c). -/
structure NTPState where
  ntp_offset_us : Int
  ntp_target_offset_us : Int
  ntp_adjustment_step_us : Int
deriving DecidableEq, Repr

/-- The per-frame slew step performed by `get_timecode_with_alsa_latency`
under `ntp_lock`: when the offset has not reached the target and the step is
nonzero, advance `ntp_offset_us` by `ntp_adjustment_step_us`; if the advance
reaches or overshoots the target, clamp the offset to the target and zero
the step. -/
def slew_step (s : NTPState) : NTPState :=
  if s.ntp_offset_us ≠ s.ntp_target_offset_us ∧ s.ntp_adjustment_step_us ≠ 0 then
    let o := s.ntp_offset_us + s.ntp_adjustment_step_us
    if (0 < s.ntp_adjustment_step_us ∧ s.ntp_target_offset_us ≤ o) ∨
        (s.ntp_adjustment_step_us < 0 ∧ o ≤ s.ntp_target_offset_us) then
      { ntp_offset_us := s.ntp_target_offset_us
        ntp_target_offset_us := s.ntp_target_offset_us
        ntp_adjustment_step_us := 0 }
    else
      { s with ntp_offset_us := o }
  else s

/-- The constant `NTP_ERROR_THRESHOLD` from `ltc_ntp.h`: ten seconds in
microseconds. -/
def NTP_ERROR_THRESHOLD : Int := 10 * MICROSECONDS_PER_SECOND

/-- The sample collection loop of `query_ntp_server`: each element of
`results` is the outcome of one `perform_single_ntp_query` call (`none` for
a transport failure, i.e. the `INT64_MAX` sentinel).  A sample survives when
the query succeeded and `labs(offset) < NTP_ERROR_THRESHOLD`. -/
def surviving_offsets (results : List (Option Int)) : List Int :=
  (results.filterMap id).filter (fun o => o.natAbs < NTP_ERROR_THRESHOLD.natAbs)

/-- The fallback average of `query_ntp_server`: `sum_offset` divided by
`successful_queries` with C (truncating) division. -/
def ntp_average (l : List Int) : Int :=
  Int.tdiv l.sum (l.length : Int)

/-- One step of the offset-selection loop of `query_ntp_server`: replace the
candidate `m` by the sample `o` when `labs(o) < labs(m)`. -/
def min_abs_fold (m o : Int) : Int :=
  if o.natAbs < m.natAbs then o else m

/-- The offset-selection loop of `query_ntp_server`: start from the average
of the surviving samples, then replace it by any surviving sample of
strictly smaller absolute value, scanning in order. -/
def select_min_offset (l : List Int) : Int :=
  l.foldl min_abs_fold (ntp_average l)

/-- The step publication at the end of `query_ntp_server`: with
`diff = ntp_target_offset_us - ntp_offset_us` and
`adjust_frames = (int64_t)(ntp_slew_period * selected_fps)`, the new
`ntp_adjustment_step_us` is `diff / adjust_frames` (C truncating division),
forced to plus or minus one when the division gives zero but `diff` is
nonzero; when `adjust_frames` is not positive the step keeps its previous
value. -/
def compute_step (diff adjust_frames old_step : Int) : Int :=
  if 0 < adjust_frames then
    let q := Int.tdiv diff adjust_frames
    if diff ≠ 0 ∧ q = 0 then (if 0 < diff then 1 else -1) else q
  else old_step

/-- The state update performed by `query_ntp_server` after the query loop:
if no sample survived, return failure and leave the state untouched;
otherwise select the representative offset, re-check it against
`NTP_ERROR_THRESHOLD` (failing without any state change when it is
extreme), and on success publish it as the new target together with the
per-frame slew step.  The boolean is `true` for a zero (success) return
value. -/
def query_ntp_server_update (s : NTPState) (results : List (Option Int))
    (adjust_frames : Int) : Bool × NTPState :=
  let survivors := surviving_offsets results
  if survivors.length = 0 then (false, s)
  else
    let min_offset := select_min_offset survivors
    if min_offset.natAbs < NTP_ERROR_THRESHOLD.natAbs then
      (true,
        { ntp_offset_us := s.ntp_offset_us
          ntp_target_offset_us := min_offset
          ntp_adjustment_step_us :=
            compute_step (min_offset - s.ntp_offset_us) adjust_frames
              s.ntp_adjustment_step_us })
    else (false, s)

/-- The frame-rate branch taken by the frame computations: the `double fps`
values that occur in the program (the six supported rates use 24.0, 25.0,
29.97 and 30.0; the code also has a 23.976 branch). -/
inductive FPS
  | f23976
  | f24
  | f25
  | f2997
  | f30
deriving DecidableEq, Repr

/--`frame_numerator` as computed in `get_timecode_with_alsa_latency` and
`get_display_timecode`: 30000 for 29.97, 24000 for 23.976, and
`(int64_t)(fps * 1000)` for the integer rates (exact in double
arithmetic). -/
def frame_numerator : FPS → Int
  | .f23976 => 24000
  | .f24 => 24000
  | .f25 => 25000
  | .f2997 => 30000
  | .f30 => 30000

/-- `frame_denominator` as computed in the same functions: 1001 for the
NTSC-family rates, 1000 otherwise. -/
def frame_denominator : FPS → Int
  | .f23976 => 1001
  | .f2997 => 1001
  | _ => 1000

/-- `us_per_frame = (MICROSECONDS_PER_SECOND * frame_denominator) / frame_numerator`
with C integer division. -/
def us_per_frame (f : FPS) : Int :=
  Int.tdiv (MICROSECONDS_PER_SECOND * frame_denominator f) (frame_numerator f)

/-- The clamp bound `(int)(frame_numerator / frame_denominator)` used by
both frame computations. -/
def clamp_bound (f : FPS) : Int :=
  Int.tdiv (frame_numerator f) (frame_denominator f)

/-- `frame = (int)(adj_frac_us / us_per_frame)` with C integer division. -/
def raw_frame (adj_frac_us : Int) (f : FPS) : Int :=
  Int.tdiv adj_frac_us (us_per_frame f)

/-- The clamp applied by both frame computations: a frame at or above
`frame_numerator / frame_denominator` is replaced by that bound minus
one. -/
def clamp_frame (fr : Int) (f : FPS) : Int :=
  if clamp_bound f ≤ fr then clamp_bound f - 1 else fr

/-- The drop-frame rule applied by both frame computations: when the rate is
drop-frame, the minute is not divisible by ten and the frame is below two,
force the frame to two. -/
def apply_drop_frame (fr : Int) (drop_frame : Bool) (mins : Int) : Int :=
  if drop_frame = true ∧ Int.tmod mins 10 ≠ 0 ∧ fr < 2 then 2 else fr

/-- The frame field produced by `get_timecode_with_alsa_latency` for the
adjusted time `adj_time_us` (microseconds after NTP offset, buffer delay and
adaptive correction) and the calendar minute `mins` returned by `localtime`:
take the sub-second remainder, divide by the exact frame duration, clamp,
and apply the drop-frame rule. -/
def get_timecode_frame (adj_time_us : Int) (f : FPS) (drop_frame : Bool)
    (mins : Int) : Int :=
  apply_drop_frame
    (clamp_frame (raw_frame (Int.tmod adj_time_us MICROSECONDS_PER_SECOND) f) f)
    drop_frame mins

/-- The frame field produced by `get_display_timecode` for the NTP-adjusted
time `time_us` and the calendar minute `mins`: the same derivation as the
output path, without buffer delay or adaptive correction in the input. -/
def get_display_frame (time_us : Int) (f : FPS) (drop_frame : Bool)
    (mins : Int) : Int :=
  apply_drop_frame
    (clamp_frame (raw_frame (Int.tmod time_us MICROSECONDS_PER_SECOND) f) f)
    drop_frame mins

/-- One entry of the `supported_rates` table (`framerate_spec_t`), with the
`double fps` field represented by its exact branch value. -/
structure framerate_spec where
  fps : FPS
  std : Int
  drop_frame : Bool
  name : String
deriving DecidableEq, Repr

/-- The `supported_rates` table from ltc_timecode.c. -/
def supported_rates : List framerate_spec :=
  [⟨.f24, 0, false, "24"⟩,
   ⟨.f25, 1, false, "25"⟩,
   ⟨.f2997, 0, false, "29.97"⟩,
   ⟨.f30, 0, false, "30"⟩,
   ⟨.f2997, 0, true, "29.97df"⟩,
   ⟨.f30, 0, true, "30df"⟩]

/-- The nominal frame rate rounded to the nearest integer (`round(fps)`). -/
def round_fps : FPS → Int
  | .f23976 => 24
  | .f24 => 24
  | .f25 => 25
  | .f2997 => 30
  | .f30 => 30

/-- The interval wait of `ntp_sync_thread`:
`for (i = 0; i < ntp_sync_interval && running; i++) sleep(1);`.
Given the interval bound `n` and the value `run i` of the `running` flag at
the i-th loop-condition check, return the list of the sleep durations (in
whole seconds) executed between consecutive checks. -/
def ntp_wait_sleeps : Nat → (Nat → Bool) → List Nat
  | 0, _ => []
  | n + 1, run =>
    if run 0 then 1 :: ntp_wait_sleeps n (fun i => run (i + 1)) else []

/-! Basic structure of the slew step. -/

theorem slew_step_eq_clamp (s : NTPState)
    (h1 : s.ntp_offset_us ≠ s.ntp_target_offset_us)
    (h2 : s.ntp_adjustment_step_us ≠ 0)
    (h3 : (0 < s.ntp_adjustment_step_us ∧
            s.ntp_target_offset_us ≤ s.ntp_offset_us + s.ntp_adjustment_step_us) ∨
          (s.ntp_adjustment_step_us < 0 ∧
            s.ntp_offset_us + s.ntp_adjustment_step_us ≤ s.ntp_target_offset_us)) :
    slew_step s = ⟨s.ntp_target_offset_us, s.ntp_target_offset_us, 0⟩ := by
  simp only [slew_step]
  rw [if_pos ⟨h1, h2⟩, if_pos h3]

theorem slew_step_eq_advance (s : NTPState)
    (h1 : s.ntp_offset_us ≠ s.ntp_target_offset_us)
    (h2 : s.ntp_adjustment_step_us ≠ 0)
    (h3 : ¬ ((0 < s.ntp_adjustment_step_us ∧
            s.ntp_target_offset_us ≤ s.ntp_offset_us + s.ntp_adjustment_step_us) ∨
          (s.ntp_adjustment_step_us < 0 ∧
            s.ntp_offset_us + s.ntp_adjustment_step_us ≤ s.ntp_target_offset_us))) :
    slew_step s = ⟨s.ntp_offset_us + s.ntp_adjustment_step_us,
      s.ntp_target_offset_us, s.ntp_adjustment_step_us⟩ := by
  simp only [slew_step]
  rw [if_pos ⟨h1, h2⟩, if_neg h3]

theorem slew_step_fixed (s : NTPState)
    (h : s.ntp_offset_us = s.ntp_target_offset_us) : slew_step s = s := by
  simp only [slew_step]
  rw [if_neg]
  intro hc
  exact hc.1 h

theorem slew_step_target (s : NTPState) :
    (slew_step s).ntp_target_offset_us = s.ntp_target_offset_us := by
  simp only [slew_step]
  split_ifs <;> rfl

theorem slew_step_le (s : NTPState)
    (h : s.ntp_offset_us ≤ s.ntp_target_offset_us) :
    (slew_step s).ntp_offset_us ≤ s.ntp_target_offset_us := by
  simp only [slew_step]
  split_ifs with h1 h2 <;> (try dsimp only) <;> omega

theorem slew_iterate_le (n : Nat) (s : NTPState)
    (h : s.ntp_offset_us ≤ s.ntp_target_offset_us) :
    ((slew_step)^[n] s).ntp_offset_us ≤ s.ntp_target_offset_us := by
  induction n generalizing s with
  | zero => simpa using h
  | succ n ih =>
    rw [Function.iterate_succ_apply]
    have := ih (slew_step s) (by rw [slew_step_target]; exact slew_step_le s h)
    rwa [slew_step_target] at this

theorem slew_no_clamp (n : Nat) :
    ∀ o t st : Int, 0 < st → o + st * n < t →
    (slew_step)^[n] ⟨o, t, st⟩ = ⟨o + st * n, t, st⟩ := by
  induction n with
  | zero => intro o t st _ _; simp
  | succ n ih =>
    intro o t st hst h
    have hrel : st * ((n + 1 : Nat) : Int) = st * (n : Int) + st := by push_cast; ring
    have hn : (0 : Int) ≤ st * (n : Int) := by positivity
    have h' : o + (st * (n : Int) + st) < t := by rw [← hrel]; exact h
    have ho : o ≠ t := by omega
    rw [Function.iterate_succ_apply,
      slew_step_eq_advance ⟨o, t, st⟩ ho (by dsimp only; omega) (by dsimp only; omega)]
    rw [ih (o + st) t st hst (by omega)]
    have harith : o + st + st * (n : Int) = o + st * ((n + 1 : Nat) : Int) := by
      rw [hrel]; ring
    rw [harith]

theorem slew_reaches (n : Nat) :
    ∀ o t st : Int, 0 < st → o ≤ t → t ≤ o + st * n →
    ((slew_step)^[n] ⟨o, t, st⟩).ntp_offset_us = t := by
  induction n with
  | zero => intro o t st _ h1 h2; simp at h2 ⊢; omega
  | succ n ih =>
    intro o t st hst h1 h2
    have hrel : st * ((n + 1 : Nat) : Int) = st * (n : Int) + st := by push_cast; ring
    have hn : (0 : Int) ≤ st * (n : Int) := by positivity
    have h2' : t ≤ o + (st * (n : Int) + st) := by rw [← hrel]; exact h2
    rw [Function.iterate_succ_apply]
    by_cases ho : o = t
    · rw [slew_step_fixed ⟨o, t, st⟩ ho]
      exact ih o t st hst h1 (by omega)
    · by_cases hcl : t ≤ o + st
      · rw [slew_step_eq_clamp ⟨o, t, st⟩ ho (by dsimp only; omega) (by dsimp only; omega)]
        rw [Function.iterate_fixed (slew_step_fixed ⟨t, t, 0⟩ rfl)]
      · rw [slew_step_eq_advance ⟨o, t, st⟩ ho (by dsimp only; omega) (by dsimp only; omega)]
        exact ih (o + st) t st hst (by omega) (by omega)

/-- C2 (amended): starting from current offset 0 and target 250000 µs with
slew period 30 s and fps 25, the published per-frame step is
250000 tdiv 750 = 333, so repeated application of the per-frame slew step
reaches exactly 250000 at step 751 (not within 750 steps) and never
overshoots the target. -/
theorem C2_slew_convergence :
    compute_step (250000 - 0) 750 0 = 333
    ∧ ((slew_step)^[751] ⟨0, 250000, 333⟩ : NTPState).ntp_offset_us = 250000
    ∧ ∀ n : Nat, ((slew_step)^[n] ⟨0, 250000, 333⟩ : NTPState).ntp_offset_us ≤ 250000 := by
  refine ⟨by decide, ?_, ?_⟩
  · exact slew_reaches 751 0 250000 333 (by norm_num) (by norm_num) (by norm_num)
  · intro n
    exact slew_iterate_le n ⟨0, 250000, 333⟩ (by norm_num)

/-- C2 witness: the convergence theorem evaluated at concrete step counts. -/
theorem C2_slew_convergence_witness :
    ((slew_step)^[751] ⟨0, 250000, 333⟩ : NTPState).ntp_offset_us = 250000
    ∧ ((slew_step)^[5] ⟨0, 250000, 333⟩ : NTPState).ntp_offset_us ≤ 250000 :=
  ⟨C2_slew_convergence.2.1, C2_slew_convergence.2.2 5⟩

/-- C2 counterexample: with step 333 = 250000 tdiv 750, after 750
applications of the per-frame slew step the offset is 249750, so the target
250000 is not reached within 750 steps. -/
theorem C2_counterexample :
    ((slew_step)^[750] ⟨0, 250000, 333⟩ : NTPState).ntp_offset_us = 249750
    ∧ (249750 : Int) ≠ 250000 := by
  constructor
  · rw [slew_no_clamp 750 0 250000 333 (by norm_num) (by norm_num)]
    norm_num
  · decide

/-! Properties of the offset selection of `query_ntp_server`. -/

theorem foldl_min_mem_or_init (l : List Int) :
    ∀ init : Int, l.foldl min_abs_fold init ∈ l ∨ l.foldl min_abs_fold init = init := by
  induction l with
  | nil => intro init; right; rfl
  | cons x l ih =>
    intro init
    simp only [List.foldl_cons]
    rcases ih (min_abs_fold init x) with h | h
    · left; exact List.mem_cons_of_mem _ h
    · rw [h]
      unfold min_abs_fold
      split_ifs
      · left; exact List.mem_cons_self _ _
      · right; rfl

theorem foldl_min_abs_le (l : List Int) :
    ∀ init : Int,
      (l.foldl min_abs_fold init).natAbs ≤ init.natAbs
      ∧ ∀ x ∈ l, (l.foldl min_abs_fold init).natAbs ≤ x.natAbs := by
  induction l with
  | nil => intro init; exact ⟨le_rfl, by simp⟩
  | cons x l ih =>
    intro init
    simp only [List.foldl_cons]
    have hstep : (min_abs_fold init x).natAbs ≤ init.natAbs
        ∧ (min_abs_fold init x).natAbs ≤ x.natAbs := by
      unfold min_abs_fold
      split_ifs <;> omega
    refine ⟨le_trans (ih (min_abs_fold init x)).1 hstep.1, ?_⟩
    intro y hy
    rcases List.mem_cons.mp hy with rfl | hy
    · exact le_trans (ih (min_abs_fold init y)).1 hstep.2
    · exact (ih (min_abs_fold init x)).2 y hy

theorem sum_natAbs_lt {T : Nat} :
    ∀ l : List Int, l ≠ [] → (∀ x ∈ l, x.natAbs < T) →
    l.sum.natAbs < l.length * T := by
  intro l
  induction l with
  | nil => intro h; exact absurd rfl h
  | cons x l ih =>
    intro _ h
    cases l with
    | nil =>
      have := h x (List.mem_cons_self _ _)
      simpa using this
    | cons y l' =>
      have h1 := ih (by simp) (fun z hz => h z (List.mem_cons_of_mem _ hz))
      have h2 : (x + (y :: l').sum).natAbs ≤ x.natAbs + (y :: l').sum.natAbs :=
        Int.natAbs_add_le _ _
      have hx := h x (List.mem_cons_self _ _)
      simp only [List.sum_cons, List.length_cons] at *
      have hmul : (l'.length + 1 + 1) * T = (l'.length + 1) * T + T := by ring
      omega

theorem ntp_average_natAbs_lt {T : Nat} (l : List Int) (hne : l ≠ [])
    (h : ∀ x ∈ l, x.natAbs < T) : (ntp_average l).natAbs < T := by
  unfold ntp_average
  rw [Int.natAbs_tdiv, Int.natAbs_ofNat]
  have hlen0 : 0 < l.length := List.length_pos.mpr hne
  have hsum := sum_natAbs_lt l hne h
  have hdiv : l.sum.natAbs / l.length < T :=
    (Nat.div_lt_iff_lt_mul hlen0).mpr (by rw [Nat.mul_comm]; exact hsum)
  exact hdiv

theorem select_min_offset_natAbs_lt {T : Nat} (l : List Int) (hne : l ≠ [])
    (h : ∀ x ∈ l, x.natAbs < T) : (select_min_offset l).natAbs < T := by
  have h1 := (foldl_min_abs_le l (ntp_average l)).1
  have h2 := ntp_average_natAbs_lt l hne h
  unfold select_min_offset
  omega

theorem surviving_offsets_natAbs_lt (results : List (Option Int)) :
    ∀ x ∈ surviving_offsets results, x.natAbs < NTP_ERROR_THRESHOLD.natAbs := by
  intro x hx
  unfold surviving_offsets at hx
  rw [List.mem_filter] at hx
  simpa using hx.2

theorem query_success_eq (s : NTPState) (results : List (Option Int))
    (adjust_frames : Int) (hs : surviving_offsets results ≠ []) :
    query_ntp_server_update s results adjust_frames =
      (true,
        ⟨s.ntp_offset_us, select_min_offset (surviving_offsets results),
          compute_step (select_min_offset (surviving_offsets results) - s.ntp_offset_us)
            adjust_frames s.ntp_adjustment_step_us⟩) := by
  have hlen : ¬ (surviving_offsets results).length = 0 := by
    simpa [List.length_eq_zero] using hs
  have habs : (select_min_offset (surviving_offsets results)).natAbs
      < NTP_ERROR_THRESHOLD.natAbs :=
    select_min_offset_natAbs_lt _ hs (surviving_offsets_natAbs_lt results)
  simp only [query_ntp_server_update]
  rw [if_neg hlen, if_pos habs]

theorem query_failure_eq (s : NTPState) (results : List (Option Int))
    (adjust_frames : Int) (hs : surviving_offsets results = []) :
    query_ntp_server_update s results adjust_frames = (false, s) := by
  simp only [query_ntp_server_update, hs]
  simp

/-! Sign and magnitude of the published step. -/

theorem compute_step_tdiv_sign (diff adjust_frames : Int) (haf : 0 < adjust_frames) :
    (0 ≤ diff → 0 ≤ Int.tdiv diff adjust_frames)
    ∧ (diff ≤ 0 → Int.tdiv diff adjust_frames ≤ 0) := by
  constructor
  · intro hd
    exact Int.tdiv_nonneg hd (le_of_lt haf)
  · intro hd
    have h1 : 0 ≤ Int.tdiv (-diff) adjust_frames :=
      Int.tdiv_nonneg (by omega) (le_of_lt haf)
    rw [Int.neg_tdiv] at h1
    omega

theorem compute_step_sign (diff adjust_frames old_step : Int)
    (haf : 0 < adjust_frames)
    (h : compute_step diff adjust_frames old_step ≠ 0) :
    (0 < compute_step diff adjust_frames old_step ↔ 0 < diff)
    ∧ (compute_step diff adjust_frames old_step < 0 ↔ diff < 0) := by
  have hq0 := compute_step_tdiv_sign diff adjust_frames haf
  simp only [compute_step, if_pos haf] at h ⊢
  split_ifs at h ⊢ with hq hpos <;> omega

theorem compute_step_nonzero (diff adjust_frames old_step : Int)
    (haf : 0 < adjust_frames) (hd : diff ≠ 0) :
    compute_step diff adjust_frames old_step ≠ 0 := by
  simp only [compute_step, if_pos haf]
  split_ifs with hq hpos <;> omega

/-- C3: for every state satisfying the reachable-state invariant (the step
is nonzero, or the offset has reached the target), applying the per-frame
slew step of `get_timecode_with_alsa_latency` strictly decreases the
distance between `ntp_offset_us` and `ntp_target_offset_us` when that
distance is nonzero and leaves it at zero otherwise; and whenever a
successful `query_ntp_server` sync publishes a nonzero
`ntp_adjustment_step_us`, its sign equals the sign of
`ntp_target_offset_us - ntp_offset_us` at publication time. -/
theorem C3_slew_distance_and_step_sign :
    (∀ s : NTPState,
      (s.ntp_adjustment_step_us ≠ 0 ∨ s.ntp_offset_us = s.ntp_target_offset_us) →
      (s.ntp_offset_us ≠ s.ntp_target_offset_us →
        ((slew_step s).ntp_offset_us - (slew_step s).ntp_target_offset_us).natAbs
          < (s.ntp_offset_us - s.ntp_target_offset_us).natAbs)
      ∧ (s.ntp_offset_us = s.ntp_target_offset_us →
        ((slew_step s).ntp_offset_us - (slew_step s).ntp_target_offset_us).natAbs = 0))
    ∧ (∀ (s : NTPState) (results : List (Option Int)) (adjust_frames : Int),
      0 < adjust_frames →
      (query_ntp_server_update s results adjust_frames).1 = true →
      (query_ntp_server_update s results adjust_frames).2.ntp_adjustment_step_us ≠ 0 →
      (0 < (query_ntp_server_update s results adjust_frames).2.ntp_adjustment_step_us ↔
        0 < (query_ntp_server_update s results adjust_frames).2.ntp_target_offset_us
          - (query_ntp_server_update s results adjust_frames).2.ntp_offset_us)
      ∧ ((query_ntp_server_update s results adjust_frames).2.ntp_adjustment_step_us < 0 ↔
        (query_ntp_server_update s results adjust_frames).2.ntp_target_offset_us
          - (query_ntp_server_update s results adjust_frames).2.ntp_offset_us < 0)) := by
  constructor
  · intro s hinv
    constructor
    · intro hne
      have hst : s.ntp_adjustment_step_us ≠ 0 := by tauto
      simp only [slew_step]
      rw [if_pos ⟨hne, hst⟩]
      split_ifs with hcl <;> dsimp only <;> omega
    · intro heq
      rw [slew_step_fixed s heq, heq]
      omega
  · intro s results adjust_frames haf hok hstep
    by_cases hs : surviving_offsets results = []
    · rw [query_failure_eq s results adjust_frames hs] at hok
      simp at hok
    · rw [query_success_eq s results adjust_frames hs] at hstep ⊢
      dsimp only at hstep ⊢
      exact compute_step_sign _ adjust_frames s.ntp_adjustment_step_us haf hstep

/-- C3 witness: the theorem applied at the state (0, 10, 3) for the distance
part and at one surviving sample of offset 100 for the sign part. -/
theorem C3_slew_distance_and_step_sign_witness :
    (((slew_step ⟨0, 10, 3⟩).ntp_offset_us
        - (slew_step ⟨0, 10, 3⟩).ntp_target_offset_us).natAbs
      < ((0 : Int) - 10).natAbs)
    ∧ (0 < (query_ntp_server_update ⟨0, 0, 0⟩ [some 100] 750).2.ntp_adjustment_step_us ↔
      0 < (query_ntp_server_update ⟨0, 0, 0⟩ [some 100] 750).2.ntp_target_offset_us
        - (query_ntp_server_update ⟨0, 0, 0⟩ [some 100] 750).2.ntp_offset_us) :=
  ⟨(C3_slew_distance_and_step_sign.1 ⟨0, 10, 3⟩ (by decide)).1 (by decide),
    (C3_slew_distance_and_step_sign.2 ⟨0, 0, 0⟩ [some 100] 750 (by decide)
      (by decide) (by decide)).1⟩

/-- C1 counterexample: with the two surviving samples 2 and -2 the truncated
average is 0, no survivor has strictly smaller absolute value than 0, so
`query_ntp_server` publishes 0 as the new target even though 0 is not a
member of the surviving multiset. -/
theorem C1_counterexample :
    surviving_offsets [some 2, some (-2)] = [2, -2]
    ∧ (query_ntp_server_update ⟨0, 0, 0⟩ [some 2, some (-2)] 750).2.ntp_target_offset_us = 0
    ∧ (0 : Int) ∉ ([2, -2] : List Int) := by decide

/-- C1 (amended): when at least one sample survives the plausibility
filter, the offset published as the new target by `query_ntp_server` is
either a surviving sample or the truncated average of the surviving
samples, and no surviving sample has a strictly smaller absolute value than
the published offset; it need not itself be a member of the surviving
multiset. -/
theorem C1_selected_offset_minimal (s : NTPState) (results : List (Option Int))
    (adjust_frames : Int) (hs : surviving_offsets results ≠ []) :
    (query_ntp_server_update s results adjust_frames).2.ntp_target_offset_us
        = select_min_offset (surviving_offsets results)
    ∧ (select_min_offset (surviving_offsets results) ∈ surviving_offsets results
        ∨ select_min_offset (surviving_offsets results)
            = ntp_average (surviving_offsets results))
    ∧ ∀ x ∈ surviving_offsets results,
        (select_min_offset (surviving_offsets results)).natAbs ≤ x.natAbs := by
  refine ⟨by rw [query_success_eq s results adjust_frames hs], ?_, ?_⟩
  · exact foldl_min_mem_or_init _ _
  · exact (foldl_min_abs_le _ _).2

/-- C1 witness: the theorem applied to the sample set 5000, -300, 9999999,
450 microseconds with all queries successful. -/
theorem C1_selected_offset_minimal_witness :
    (query_ntp_server_update ⟨0, 0, 0⟩
        [some 5000, some (-300), some 9999999, some 450] 750).2.ntp_target_offset_us
        = select_min_offset (surviving_offsets
            [some 5000, some (-300), some 9999999, some 450])
    ∧ (select_min_offset (surviving_offsets
            [some 5000, some (-300), some 9999999, some 450])
          ∈ surviving_offsets [some 5000, some (-300), some 9999999, some 450]
        ∨ select_min_offset (surviving_offsets
            [some 5000, some (-300), some 9999999, some 450])
          = ntp_average (surviving_offsets
              [some 5000, some (-300), some 9999999, some 450]))
    ∧ ∀ x ∈ surviving_offsets [some 5000, some (-300), some 9999999, some 450],
        (select_min_offset (surviving_offsets
            [some 5000, some (-300), some 9999999, some 450])).natAbs ≤ x.natAbs :=
  C1_selected_offset_minimal ⟨0, 0, 0⟩
    [some 5000, some (-300), some 9999999, some 450] 750 (by decide)

/-- C4: after a successful sync with a positive slew-frame count, if the
difference between the published target and the current offset is nonzero
but smaller in magnitude than the slew-frame count
`(int64_t)(ntp_slew_period * selected_fps)`, the published per-frame step is
forced to +1 when the difference is positive and -1 when it is negative,
never 0. -/
theorem C4_forced_unit_step (s : NTPState) (results : List (Option Int))
    (adjust_frames : Int)
    (hs : surviving_offsets results ≠ [])
    (haf : 0 < adjust_frames)
    (hd : select_min_offset (surviving_offsets results) - s.ntp_offset_us ≠ 0)
    (hlt : (select_min_offset (surviving_offsets results) - s.ntp_offset_us).natAbs
        < adjust_frames.natAbs) :
    (query_ntp_server_update s results adjust_frames).2.ntp_adjustment_step_us
      = (if 0 < select_min_offset (surviving_offsets results) - s.ntp_offset_us
          then 1 else -1)
    ∧ (query_ntp_server_update s results adjust_frames).2.ntp_adjustment_step_us ≠ 0 := by
  rw [query_success_eq s results adjust_frames hs]
  dsimp only
  have hq : Int.tdiv (select_min_offset (surviving_offsets results) - s.ntp_offset_us)
      adjust_frames = 0 := by
    have h1 : (Int.tdiv (select_min_offset (surviving_offsets results) - s.ntp_offset_us)
        adjust_frames).natAbs
        = (select_min_offset (surviving_offsets results) - s.ntp_offset_us).natAbs
          / adjust_frames.natAbs := Int.natAbs_tdiv _ _
    have h2 : (select_min_offset (surviving_offsets results) - s.ntp_offset_us).natAbs
        / adjust_frames.natAbs = 0 := Nat.div_eq_of_lt hlt
    omega
  constructor
  · simp only [compute_step, if_pos haf]
    rw [if_pos ⟨hd, hq⟩]
  · exact compute_step_nonzero _ adjust_frames s.ntp_adjustment_step_us haf hd

/-- C4 witness: one surviving sample of 100 µs against a current offset of
0 with 750 slew frames-the quotient 100 tdiv 750 is 0, and the published
step is forced to 1. -/
theorem C4_forced_unit_step_witness :
    (query_ntp_server_update ⟨0, 0, 0⟩ [some 100] 750).2.ntp_adjustment_step_us
      = (if 0 < select_min_offset (surviving_offsets [some 100]) - (0 : Int)
          then 1 else -1)
    ∧ (query_ntp_server_update ⟨0, 0, 0⟩ [some 100] 750).2.ntp_adjustment_step_us ≠ 0 :=
  C4_forced_unit_step ⟨0, 0, 0⟩ [some 100] 750 (by decide) (by decide)
    (by decide) (by decide)

/-- C5: when every query in a sync cycle fails or is discarded by the
plausibility filter, `query_ntp_server` returns an error and leaves
`ntp_offset_us`, `ntp_target_offset_us` and `ntp_adjustment_step_us`
entirely unchanged. -/
theorem C5_total_failure_no_update (s : NTPState) (results : List (Option Int))
    (adjust_frames : Int) (hs : surviving_offsets results = []) :
    query_ntp_server_update s results adjust_frames = (false, s) :=
  query_failure_eq s results adjust_frames hs

/-- C5 witness: two transport failures and one implausible 20-second offset
leave the state (1, 2, 3) untouched and report failure. -/
theorem C5_total_failure_no_update_witness :
    query_ntp_server_update ⟨1, 2, 3⟩ [none, some 20000000, none] 750
      = (false, ⟨1, 2, 3⟩) :=
  C5_total_failure_no_update ⟨1, 2, 3⟩ [none, some 20000000, none] 750 (by decide)

/-- C10: whenever at least one sample survives the per-sample plausibility
filter, the selected offset also satisfies
`labs(offset) < NTP_ERROR_THRESHOLD`, so the post-selection extreme-offset
rejection branch of `query_ntp_server` is unreachable and a cycle with
surviving samples always succeeds and updates the target. -/
theorem C10_extreme_branch_unreachable (s : NTPState) (results : List (Option Int))
    (adjust_frames : Int) (hs : surviving_offsets results ≠ []) :
    (select_min_offset (surviving_offsets results)).natAbs
        < NTP_ERROR_THRESHOLD.natAbs
    ∧ (query_ntp_server_update s results adjust_frames).1 = true
    ∧ (query_ntp_server_update s results adjust_frames).2.ntp_target_offset_us
        = select_min_offset (surviving_offsets results) :=
  ⟨select_min_offset_natAbs_lt _ hs (surviving_offsets_natAbs_lt results),
    by rw [query_success_eq s results adjust_frames hs],
    by rw [query_success_eq s results adjust_frames hs]⟩

/-- C10 witness: a single surviving sample of 9999999 µs (just inside the
threshold) always yields a successful update. -/
theorem C10_extreme_branch_unreachable_witness :
    (select_min_offset (surviving_offsets [some 9999999])).natAbs
        < NTP_ERROR_THRESHOLD.natAbs
    ∧ (query_ntp_server_update ⟨0, 0, 0⟩ [some 9999999] 750).1 = true
    ∧ (query_ntp_server_update ⟨0, 0, 0⟩ [some 9999999] 750).2.ntp_target_offset_us
        = select_min_offset (surviving_offsets [some 9999999]) :=
  C10_extreme_branch_unreachable ⟨0, 0, 0⟩ [some 9999999] 750 (by decide)

/-! Bounds for the frame derivation shared by `get_timecode_with_alsa_latency`
and `get_display_timecode`. -/

theorem tdiv_le_tdiv_right {a b c : Int} (hc : 0 < c) (h0 : 0 ≤ a) (hab : a ≤ b) :
    Int.tdiv a c ≤ Int.tdiv b c := by
  rw [Int.tdiv_eq_ediv h0 (le_of_lt hc), Int.tdiv_eq_ediv (le_trans h0 hab) (le_of_lt hc)]
  exact Int.ediv_le_ediv hc hab

theorem raw_frame_nonneg (frac : Int) (f : FPS) (h0 : 0 ≤ frac) :
    0 ≤ raw_frame frac f := by
  apply Int.tdiv_nonneg h0
  cases f <;> decide

theorem clamp_bound_le_round (f : FPS) : clamp_bound f ≤ round_fps f := by
  cases f <;> decide

theorem clamp_frame_range (fr : Int) (f : FPS) (h0 : 0 ≤ fr) :
    0 ≤ clamp_frame fr f ∧ clamp_frame fr f ≤ clamp_bound f - 1 ∨
    0 ≤ clamp_frame fr f ∧ clamp_frame fr f < clamp_bound f := by
  have hb : (1 : Int) ≤ clamp_bound f := by cases f <;> decide
  unfold clamp_frame
  split_ifs with h <;> omega

theorem apply_drop_frame_range {lo hi fr : Int} (drop_frame : Bool) (mins : Int)
    (h : lo ≤ fr ∧ fr < hi) (h2 : lo ≤ 2 ∧ 2 < hi) :
    lo ≤ apply_drop_frame fr drop_frame mins
    ∧ apply_drop_frame fr drop_frame mins < hi := by
  unfold apply_drop_frame
  split_ifs with hc <;> omega

/-- C6: for every supported drop-frame rate, if the computed minute is not
divisible by 10 the frame field returned by both the output-timecode and the
display-timecode computations is at least 2 (never 0 or 1); for minutes
divisible by 10 the drop-frame rule passes the clamped frame through
unchanged. -/
theorem C6_drop_frame_rule (r : framerate_spec) (_hr : r ∈ supported_rates)
    (hdf : r.drop_frame = true) (t mins : Int) :
    (Int.tmod mins 10 ≠ 0 →
      2 ≤ get_timecode_frame t r.fps r.drop_frame mins
      ∧ 2 ≤ get_display_frame t r.fps r.drop_frame mins)
    ∧ (Int.tmod mins 10 = 0 →
      get_timecode_frame t r.fps r.drop_frame mins
        = clamp_frame (raw_frame (Int.tmod t MICROSECONDS_PER_SECOND) r.fps) r.fps
      ∧ get_display_frame t r.fps r.drop_frame mins
        = clamp_frame (raw_frame (Int.tmod t MICROSECONDS_PER_SECOND) r.fps) r.fps) := by
  constructor
  · intro hm
    unfold get_timecode_frame get_display_frame apply_drop_frame
    rw [hdf]
    simp only [eq_self_iff_true, true_and]
    constructor <;> split_ifs with h <;> omega
  · intro hm
    unfold get_timecode_frame get_display_frame apply_drop_frame
    constructor <;> split_ifs with h <;> first | rfl | (exfalso; exact h.2.1 hm)

/-- C6 witness: the theorem applied to the 29.97df rate at adjusted time 0,
for a minute not divisible by 10 and a minute divisible by 10. -/
theorem C6_drop_frame_rule_witness :
    (2 ≤ get_timecode_frame 0 FPS.f2997 true 7
      ∧ 2 ≤ get_display_frame 0 FPS.f2997 true 7)
    ∧ (get_timecode_frame 0 FPS.f2997 true 20
        = clamp_frame (raw_frame (Int.tmod 0 MICROSECONDS_PER_SECOND) FPS.f2997) FPS.f2997
      ∧ get_display_frame 0 FPS.f2997 true 20
        = clamp_frame (raw_frame (Int.tmod 0 MICROSECONDS_PER_SECOND) FPS.f2997) FPS.f2997) :=
  ⟨(C6_drop_frame_rule ⟨.f2997, 0, true, "29.97df"⟩ (by decide) rfl 0 7).1 (by decide),
    (C6_drop_frame_rule ⟨.f2997, 0, true, "29.97df"⟩ (by decide) rfl 0 20).2 (by decide)⟩

/-- C7: for every supported rate and every nonnegative adjusted time, the
frame derived and clamped before the drop-frame rule lies in the interval
from 0 to round(fps)-1 inclusive, and the frame field returned by the
output-timecode computation lies in the interval from 0 inclusive to
round(fps) exclusive. -/
theorem C7_frame_range (r : framerate_spec) (_hr : r ∈ supported_rates)
    (t mins : Int) (ht : 0 ≤ t) :
    (0 ≤ clamp_frame (raw_frame (Int.tmod t MICROSECONDS_PER_SECOND) r.fps) r.fps
      ∧ clamp_frame (raw_frame (Int.tmod t MICROSECONDS_PER_SECOND) r.fps) r.fps
          ≤ round_fps r.fps - 1)
    ∧ 0 ≤ get_timecode_frame t r.fps r.drop_frame mins
    ∧ get_timecode_frame t r.fps r.drop_frame mins < round_fps r.fps := by
  have hfrac0 : 0 ≤ Int.tmod t MICROSECONDS_PER_SECOND :=
    Int.tmod_nonneg _ ht
  have hraw := raw_frame_nonneg (Int.tmod t MICROSECONDS_PER_SECOND) r.fps hfrac0
  have hclamp := clamp_frame_range
    (raw_frame (Int.tmod t MICROSECONDS_PER_SECOND) r.fps) r.fps hraw
  have hb := clamp_bound_le_round r.fps
  have hround : (24 : Int) ≤ round_fps r.fps := by cases hcase : r.fps <;> decide
  have hbound :
      0 ≤ clamp_frame (raw_frame (Int.tmod t MICROSECONDS_PER_SECOND) r.fps) r.fps
      ∧ clamp_frame (raw_frame (Int.tmod t MICROSECONDS_PER_SECOND) r.fps) r.fps
        < round_fps r.fps := by
    rcases hclamp with ⟨h1, h2⟩ | ⟨h1, h2⟩ <;> constructor <;> omega
  refine ⟨⟨hbound.1, by omega⟩, ?_⟩
  unfold get_timecode_frame
  exact apply_drop_frame_range r.drop_frame mins hbound (by omega)

/-- C7 witness: the theorem applied to the 25 fps rate at adjusted time
999999 µs, where the derived frame is 24. -/
theorem C7_frame_range_witness :
    (0 ≤ clamp_frame (raw_frame (Int.tmod 999999 MICROSECONDS_PER_SECOND) FPS.f25) FPS.f25
      ∧ clamp_frame (raw_frame (Int.tmod 999999 MICROSECONDS_PER_SECOND) FPS.f25) FPS.f25
          ≤ round_fps FPS.f25 - 1)
    ∧ 0 ≤ get_timecode_frame 999999 FPS.f25 false 0
    ∧ get_timecode_frame 999999 FPS.f25 false 0 < round_fps FPS.f25 :=
  C7_frame_range ⟨.f25, 1, false, "25"⟩ (by decide) 999999 0 (by decide)

/-- C9: for fps 29.97 (drop-frame or not) the clamp bound is the truncated
quotient 30000 tdiv 1001 = 29, so any derived frame of 29 or above is capped
at 28 and the frame field produced by both the output-timecode and the
display-timecode computations never equals 29. -/
theorem C9_ntsc_frame_cap (drop_frame : Bool) (t mins fr : Int)
    (hfr : 29 ≤ fr) :
    clamp_bound FPS.f2997 = 29
    ∧ clamp_frame fr FPS.f2997 = 28
    ∧ get_timecode_frame t FPS.f2997 drop_frame mins ≠ 29
    ∧ get_display_frame t FPS.f2997 drop_frame mins ≠ 29 := by
  have hb : clamp_bound FPS.f2997 = 29 := by decide
  refine ⟨hb, ?_, ?_, ?_⟩
  · unfold clamp_frame
    rw [hb, if_pos (by omega)]
    decide
  · unfold get_timecode_frame apply_drop_frame clamp_frame
    rw [hb]
    split_ifs <;> omega
  · unfold get_display_frame apply_drop_frame clamp_frame
    rw [hb]
    split_ifs <;> omega

/-- C9 witness: at adjusted time 999999 µs the raw frame is 29, yet the
computed frame is capped at 28 on both paths. -/
theorem C9_ntsc_frame_cap_witness :
    clamp_bound FPS.f2997 = 29
    ∧ clamp_frame 29 FPS.f2997 = 28
    ∧ get_timecode_frame 999999 FPS.f2997 false 0 ≠ 29
    ∧ get_display_frame 999999 FPS.f2997 false 0 ≠ 29 :=
  C9_ntsc_frame_cap false 999999 0 29 (by decide)

/-! The interval wait of `ntp_sync_thread`. -/

/-- C8 counterexample: with the default 60-second sync interval and the
running flag constantly set, the wait loop of `ntp_sync_thread` performs
sleeps of one full second between consecutive checks of the flag, so it is
not the case that every sleep between checks is sub-second. -/
theorem C8_counterexample :
    ¬ (∀ d ∈ ntp_wait_sleeps 60 (fun _ => true), d < 1) := by decide

/-- C8 (amended): while waiting out the configured sync interval, the NTP
sync thread sleeps exactly one second (not a sub-second amount, but also
never more, and never the whole interval in one go) between consecutive
checks of the running flag, and once the flag is cleared at the j-th check
the loop performs no further sleeps, so a shutdown request is observed after
at most one additional second of sleeping. -/
theorem C8_wait_granularity (n : Nat) (run : Nat → Bool) :
    (∀ d ∈ ntp_wait_sleeps n run, d = 1)
    ∧ (∀ j, run j = false → (ntp_wait_sleeps n run).length ≤ j)
    ∧ (ntp_wait_sleeps n run).length ≤ n := by
  induction n generalizing run with
  | zero => exact ⟨by simp [ntp_wait_sleeps], by simp [ntp_wait_sleeps], by simp [ntp_wait_sleeps]⟩
  | succ n ih =>
    by_cases h0 : run 0 = true
    · have hrec := ih (fun i => run (i + 1))
      refine ⟨?_, ?_, ?_⟩
      · intro d hd
        simp only [ntp_wait_sleeps, if_pos h0, List.mem_cons] at hd
        rcases hd with rfl | hd
        · rfl
        · exact hrec.1 d hd
      · intro j hj
        have hj0 : j ≠ 0 := by
          intro hc
          rw [hc, h0] at hj
          cases hj
        obtain ⟨j', rfl⟩ := Nat.exists_eq_succ_of_ne_zero hj0
        have := hrec.2.1 j' hj
        simp only [ntp_wait_sleeps, if_pos h0, List.length_cons]
        omega
      · simp only [ntp_wait_sleeps, if_pos h0, List.length_cons]
        have := hrec.2.2
        omega
    · have h0' : run 0 = false := by
        cases hc : run 0
        · rfl
        · exact absurd hc h0
      refine ⟨?_, ?_, ?_⟩ <;>
        simp [ntp_wait_sleeps, h0']

/-- C8 witness: the theorem applied with the flag already cleared (no sleep
happens) and with the flag constantly set (every sleep is one second). -/
theorem C8_wait_granularity_witness :
    (ntp_wait_sleeps 3 (fun _ => false)).length ≤ 0
    ∧ ∀ d ∈ ntp_wait_sleeps 3 (fun _ => true), d = 1 :=
  ⟨(C8_wait_granularity 3 (fun _ => false)).2.1 0 rfl,
    (C8_wait_granularity 3 (fun _ => true)).1⟩

end LtcTimecodePi
